import Mathlib

/-!
Shallow embedding of `sagemaker/inference_recommender/inference_recommender_mixin.py`.

Optional Python arguments are modelled as `Option`; Python truthiness is made
explicit (`none`, the empty string, `0` and the empty list are falsy, every
other value is truthy; plain objects are always truthy).  Functions that can
raise are embedded in `Except String`.  The external session collaborator is
modelled by its two return values, and `right_size` additionally returns the
trace of calls it makes to the session.
-/

namespace InferenceRecommender

/-- Python truthiness of an optional string argument: `None` and the empty
string are falsy. -/
def strTruthy : Option String → Bool
  | none => false
  | some s => s ≠ ""

/-- Python truthiness of an optional integer argument: `None` and `0` are
falsy. -/
def intTruthy : Option Int → Bool
  | none => false
  | some n => n ≠ 0

/-- Python truthiness of an optional list argument: `None` and the empty list
are falsy. -/
def listTruthy {α : Type} : Option (List α) → Bool
  | none => false
  | some l => ¬ l.isEmpty

/-- Wire form of a `Phase`, keys DurationInSeconds, InitialNumberOfUsers,
SpawnRate. -/
structure PhaseJson where
  DurationInSeconds : Int
  InitialNumberOfUsers : Int
  SpawnRate : Int
deriving DecidableEq, Repr

/-- The `Phase` value object of the source: its constructor only stores the
wire form of its three arguments. -/
structure Phase where
  duration_in_seconds : Int
  initial_number_of_users : Int
  spawn_rate : Int
deriving DecidableEq, Repr

/-- The `to_json` mapping a `Phase` stores at construction. -/
def Phase.to_json (p : Phase) : PhaseJson :=
  { DurationInSeconds := p.duration_in_seconds
    InitialNumberOfUsers := p.initial_number_of_users
    SpawnRate := p.spawn_rate }

/-- Wire form of a `ModelLatencyThreshold`, keys Percentile and
ValueInMilliseconds. -/
structure ThresholdJson where
  Percentile : String
  ValueInMilliseconds : Int
deriving DecidableEq, Repr

/-- The `ModelLatencyThreshold` value object of the source. -/
structure ModelLatencyThreshold where
  percentile : String
  value_in_milliseconds : Int
deriving DecidableEq, Repr

/-- The `to_json` mapping a `ModelLatencyThreshold` stores at construction. -/
def ModelLatencyThreshold.to_json (t : ModelLatencyThreshold) : ThresholdJson :=
  { Percentile := t.percentile, ValueInMilliseconds := t.value_in_milliseconds }

/-- Modelled from the spec: `sagemaker.parameter.CategoricalParameter` is not
under src/; the spec describes it as a named variable with an enumerated set
of candidate values, carried in its `values` attribute.  As a plain Python
object it is always truthy, even when `values` is empty. -/
structure CategoricalParameter where
  values : List String
deriving DecidableEq, Repr

/-- Wire form of one categorical range descriptor, keys Name and Value (the
source builds `as_json_range` and renames its Values key to Value). -/
structure ParameterRangeJson where
  Name : String
  Value : List String
deriving DecidableEq, Repr

/-- Wire form of the EnvironmentParameterRanges sub-document. -/
structure EnvironmentParameterRangesJson where
  CategoricalParameterRanges : List ParameterRangeJson
deriving DecidableEq, Repr

/-- Wire form of one endpoint configuration document, keys
EnvironmentParameterRanges and InstanceType. -/
structure EndpointConfigJson where
  EnvironmentParameterRanges : EnvironmentParameterRangesJson
  InstanceType : String
deriving DecidableEq, Repr

/-- Wire form of the TrafficPattern sub-document, keys Phases and
TrafficType. -/
structure TrafficPatternJson where
  Phases : List PhaseJson
  TrafficType : String
deriving DecidableEq, Repr

/-- Wire form of the StoppingConditions sub-document, keys MaxInvocations and
ModelLatencyThresholds. -/
structure StoppingConditionsJson where
  MaxInvocations : Option Int
  ModelLatencyThresholds : List ThresholdJson
deriving DecidableEq, Repr

/-- Wire form of the ResourceLimit sub-document, keys MaxNumberOfTests and
MaxParallelOfTests. -/
structure ResourceLimitJson where
  MaxNumberOfTests : Option Int
  MaxParallelOfTests : Option Int
deriving DecidableEq, Repr

/-- One `hyperparameter_ranges` entry: a Python dict from parameter name to
`CategoricalParameter`, modelled as an insertion-ordered association list
with distinct keys. -/
abbrev Entry : Type := List (String × CategoricalParameter)

/-- Python `dict.get(key)` on an entry: first (only) binding of the key. -/
def Entry.get (e : Entry) (key : String) : Option CategoricalParameter :=
  List.lookup key e

/-- Python `dict.pop(key)` applied to a copy of an entry: the remaining
bindings in insertion order. -/
def Entry.popKey (e : Entry) (key : String) : Entry :=
  List.filter (fun kv => kv.1 ≠ key) e

/-- The body of the per-instance-type loop of
`_convert_to_endpoint_configurations_json`: each remaining binding becomes a
categorical range descriptor via `as_json_range` with Values renamed to
Value. -/
def rangeDescriptors (rest : Entry) : List ParameterRangeJson :=
  List.map (fun kv => { Name := kv.1, Value := kv.2.values }) rest

/-- The per-entry part of `_convert_to_endpoint_configurations_json`: raises
`ValueError` when the entry has no truthy `instance_types` binding, otherwise
emits one configuration per candidate instance type. -/
def entryConfigs (parameter_range : Entry) : Except String (List EndpointConfigJson) :=
  match parameter_range.get "instance_types" with
  | none => .error "instance_type must be defined as a hyperparameter_range"
  | some cp =>
      let rest := parameter_range.popKey "instance_types"
      .ok (List.map
        (fun instance_type =>
          { EnvironmentParameterRanges := { CategoricalParameterRanges := rangeDescriptors rest }
            InstanceType := instance_type })
        cp.values)

/-- The loop of `_convert_to_endpoint_configurations_json` over all entries;
an exception in any entry discards the whole result. -/
def convertEntries : List Entry → Except String (List EndpointConfigJson)
  | [] => .ok []
  | e :: es =>
      match entryConfigs e with
      | .error msg => .error msg
      | .ok c =>
          match convertEntries es with
          | .error msg => .error msg
          | .ok rest => .ok (c ++ rest)

/-- Source `_convert_to_endpoint_configurations_json`: `None` (or an empty
list, both falsy) yields `None`; otherwise the concatenated per-entry
configurations. -/
def convertToEndpointConfigurationsJson (hyperparameter_ranges : Option (List Entry)) :
    Except String (Option (List EndpointConfigJson)) :=
  if listTruthy hyperparameter_ranges = false then .ok none
  else
    match hyperparameter_ranges with
    | none => .ok none
    | some rs =>
        match convertEntries rs with
        | .error msg => .error msg
        | .ok l => .ok (some l)

/-- Source `_convert_to_traffic_pattern_json`: falsy `phases` yields `None`;
otherwise the Phases list and TrafficType, which falls back to the sentinel
PHASES when `traffic_type` is falsy. -/
def convertToTrafficPatternJson (traffic_type : Option String) (phases : Option (List Phase)) :
    Option TrafficPatternJson :=
  if listTruthy phases = false then none
  else
    match phases with
    | none => none
    | some ps =>
        some { Phases := List.map Phase.to_json ps
               TrafficType :=
                 if strTruthy traffic_type then traffic_type.getD "PHASES" else "PHASES" }

/-- Source `_convert_to_resource_limit_json`: both arguments falsy yields
`None`; otherwise the mapping keeps both original values, `None` included. -/
def convertToResourceLimitJson (max_tests : Option Int) (max_parallel_tests : Option Int) :
    Option ResourceLimitJson :=
  if intTruthy max_tests = false ∧ intTruthy max_parallel_tests = false then none
  else some { MaxNumberOfTests := max_tests, MaxParallelOfTests := max_parallel_tests }

/-- Source `_convert_to_stopping_conditions_json`: both arguments falsy yields
`None`; otherwise the source iterates `model_latency_thresholds` unguarded, a
`TypeError` when that argument is `None` while `max_invocations` is truthy. -/
def convertToStoppingConditionsJson (max_invocations : Option Int)
    (model_latency_thresholds : Option (List ModelLatencyThreshold)) :
    Except String (Option StoppingConditionsJson) :=
  if intTruthy max_invocations = false ∧ listTruthy model_latency_thresholds = false then .ok none
  else
    match model_latency_thresholds with
    | none => .error "TypeError: NoneType object is not iterable"
    | some ts =>
        .ok (some { MaxInvocations := max_invocations
                    ModelLatencyThresholds := List.map ModelLatencyThreshold.to_json ts })

/-- Python values that can flow into the framework argument: `None`, a
string, or a bound method object (the source writes `self._framework` without
calling it, which denotes the bound method). -/
inductive PyVal where
  | pyNone
  | str (s : String)
  | boundMethod (name : String)
deriving DecidableEq, Repr

/-- Python truthiness of a `PyVal`: `None` and the empty string are falsy,
method objects are truthy. -/
def PyVal.truthy : PyVal → Bool
  | .pyNone => false
  | .str s => s ≠ ""
  | .boundMethod _ => true

/-- Lift an optional string argument to a `PyVal`. -/
def optStr : Option String → PyVal
  | none => .pyNone
  | some s => .str s

/-- The module-level INFERENCE_RECOMMENDER_FRAMEWORK_MAPPING table. -/
def INFERENCE_RECOMMENDER_FRAMEWORK_MAPPING : List (String × String) :=
  [("xgboost", "XGBOOST"),
   ("sklearn", "SAGEMAKER-SCIKIT-LEARN"),
   ("pytorch", "PYTORCH"),
   ("tensorflow", "TENSORFLOW"),
   ("mxnet", "MXNET")]

/-- Python `dict.get(key, default)` on the string-keyed framework table; a
key that is not a string can never be present, so it returns the default. -/
def mappingGet (m : List (String × String)) (key : PyVal) (default : PyVal) : PyVal :=
  match key with
  | .str s =>
      match List.lookup s m with
      | some v => .str v
      | none => default
  | _ => default

/-- The framework computation of `right_size` (source lines 124-125): when
the explicit argument is falsy and `self._framework()` is truthy, the source
looks up `self._framework` itself, the bound method object and not the
detected framework string, in the table, so the lookup always misses and
`dict.get` returns its default, the unchanged explicit argument. -/
def rightSizeFramework (framework : Option String) (detectedFramework : Option String) : PyVal :=
  if PyVal.truthy (optStr framework) = false ∧ strTruthy detectedFramework then
    mappingGet INFERENCE_RECOMMENDER_FRAMEWORK_MAPPING
      (.boundMethod "_framework") (optStr framework)
  else optStr framework

/-- The framework computation C4 describes, written from the spec sentence:
derive the submitted framework from the caller's detected framework via the
fixed lookup table, unknown detected frameworks passing through unmapped. -/
def rightSizeFrameworkSpec (framework : Option String) (detectedFramework : Option String) :
    PyVal :=
  if PyVal.truthy (optStr framework) = false ∧ strTruthy detectedFramework then
    mappingGet INFERENCE_RECOMMENDER_FRAMEWORK_MAPPING
      (optStr detectedFramework) (optStr detectedFramework)
  else optStr framework

/-- The EndpointConfiguration mapping inside one recommendation. -/
structure RecEndpointConfiguration where
  InstanceType : String
  InitialInstanceCount : Int
deriving DecidableEq, Repr

/-- One element of the InferenceRecommendations list. -/
structure Recommendation where
  EndpointConfiguration : RecEndpointConfiguration
deriving DecidableEq, Repr

/-- Outcome of `_check_inference_recommender_args`: a raised `ValueError`, the
`None` no-override result, the recommended pair, or the failure of the
unguarded `inference_recommendations[0]` access (`TypeError` on `None`,
`IndexError` on an empty list). -/
inductive GuardOutcome where
  | usageError (msg : String)
  | noOverride
  | recommendation (instance_type : String) (initial_instance_count : Int)
  | accessFailure
deriving DecidableEq, Repr

/-- Source `_check_inference_recommender_args`, with the caller state reduced
to its `inference_recommendations` field. -/
def checkInferenceRecommenderArgs
    (instance_type : Option String)
    (initial_instance_count : Option Int)
    (accelerator_type : Option String)
    (serverless_inference_config : Option Unit)
    (async_inference_config : Option Unit)
    (inference_recommendations : Option (List Recommendation)) : GuardOutcome :=
  if strTruthy accelerator_type then
    .usageError "accelerator_type is not compatible with right_size()."
  else if strTruthy instance_type || intTruthy initial_instance_count then
    .noOverride
  else if async_inference_config.isSome then
    .noOverride
  else if serverless_inference_config.isSome then
    .noOverride
  else
    match inference_recommendations with
    | none => .accessFailure
    | some [] => .accessFailure
    | some (r :: _) =>
        .recommendation r.EndpointConfiguration.InstanceType
          r.EndpointConfiguration.InitialInstanceCount

/-- Result of `wait_for_inference_recommendations_job`: a mapping whose
InferenceRecommendations key may be absent (`results.get` then yields
`None`). -/
structure JobResults where
  InferenceRecommendations : Option (List Recommendation)
deriving DecidableEq, Repr

/-- The caller state `right_size` reads and writes: whether it is a
registered `ModelPackage`, the fields forwarded to the session, the value of
`self._framework()`, the value of `self._get_framework_version()`, and the
two fields `right_size` assigns. -/
structure Caller where
  isModelPackage : Bool
  role : String
  model_package_arn : String
  detectedFramework : Option String
  frameworkVersion : Option String
  inference_recommender_job_results : Option JobResults
  inference_recommendations : Option (List Recommendation)
deriving DecidableEq, Repr

/-- The keyword arguments of one `create_inference_recommendations_job`
session call, in the order the source passes them. -/
structure CreateJobCall where
  role : String
  job_name : Option String
  job_type : String
  job_duration_in_seconds : Option Int
  model_package_version_arn : String
  framework : PyVal
  framework_version : Option String
  sample_payload_url : Option String
  supported_content_types : Option (List String)
  supported_instance_types : Option (List String)
  endpoint_configurations : Option (List EndpointConfigJson)
  traffic_pattern : Option TrafficPatternJson
  stopping_conditions : Option StoppingConditionsJson
  resource_limit : Option ResourceLimitJson
deriving DecidableEq, Repr

/-- One interaction with the external session object. -/
inductive SessionCall where
  | create (call : CreateJobCall)
  | wait (job_name : String) (log_level : Option String)
deriving DecidableEq, Repr

/-- The external session collaborator, reduced to the values its two methods
return. -/
structure Session where
  createReturns : String
  waitReturns : JobResults
deriving DecidableEq, Repr

/-- The keyword arguments of `right_size` itself. -/
structure RightSizeArgs where
  sample_payload_url : Option String := none
  supported_content_types : Option (List String) := none
  supported_instance_types : Option (List String) := none
  job_name : Option String := none
  framework : Option String := none
  job_duration_in_seconds : Option Int := none
  hyperparameter_ranges : Option (List Entry) := none
  phases : Option (List Phase) := none
  traffic_type : Option String := none
  max_invocations : Option Int := none
  model_latency_thresholds : Option (List ModelLatencyThreshold) := none
  max_tests : Option Int := none
  max_parallel_tests : Option Int := none
  log_level : Option String := some "Verbose"
deriving DecidableEq, Repr

/-- Python truthiness of each optional sub-document as the source tests it on
line 142: the three record-shaped fragments are truthy whenever non-null,
while the endpoint-configurations fragment is a list and an empty list is
falsy. -/
def configsTruthy (endpoint_configurations : Option (List EndpointConfigJson)) : Bool :=
  listTruthy endpoint_configurations

/-- Source `right_size`: the registered-model guard, the framework
derivation, the four translators, the job-type decision by truthiness, the
session submission and wait, and the two caller-field assignments.  The
first component is the trace of session calls; a raised exception carries an
empty trace when it precedes the submission. -/
def rightSize (c : Caller) (s : Session) (a : RightSizeArgs) :
    List SessionCall × Except String Caller :=
  if c.isModelPackage = false then
    ([], .error "right_size() is currently only supported with a registered model")
  else
    let framework := rightSizeFramework a.framework c.detectedFramework
    let framework_version := c.frameworkVersion
    match convertToEndpointConfigurationsJson a.hyperparameter_ranges with
    | .error e => ([], .error e)
    | .ok endpoint_configurations =>
        let traffic_pattern := convertToTrafficPatternJson a.traffic_type a.phases
        match convertToStoppingConditionsJson a.max_invocations a.model_latency_thresholds with
        | .error e => ([], .error e)
        | .ok stopping_conditions =>
            let resource_limit := convertToResourceLimitJson a.max_tests a.max_parallel_tests
            let job_type :=
              if configsTruthy endpoint_configurations || traffic_pattern.isSome
                  || stopping_conditions.isSome || resource_limit.isSome then
                "Advanced"
              else
                "Default"
            let call : CreateJobCall :=
              { role := c.role
                job_name := a.job_name
                job_type := job_type
                job_duration_in_seconds := a.job_duration_in_seconds
                model_package_version_arn := c.model_package_arn
                framework := framework
                framework_version := framework_version
                sample_payload_url := a.sample_payload_url
                supported_content_types := a.supported_content_types
                supported_instance_types := a.supported_instance_types
                endpoint_configurations := endpoint_configurations
                traffic_pattern := traffic_pattern
                stopping_conditions := stopping_conditions
                resource_limit := resource_limit }
            let ret_name := s.createReturns
            let results := s.waitReturns
            ([.create call, .wait ret_name a.log_level],
             .ok { c with
                    inference_recommender_job_results := some results
                    inference_recommendations := results.InferenceRecommendations })

/-- The job type of the submitted create call in a `right_size` result, when
one was submitted. -/
def submittedJobType (r : List SessionCall × Except String Caller) : Option String :=
  match r.1 with
  | .create call :: _ => some call.job_type
  | _ => none

/-- The framework of the submitted create call in a `right_size` result, when
one was submitted. -/
def submittedFramework (r : List SessionCall × Except String Caller) : Option PyVal :=
  match r.1 with
  | .create call :: _ => some call.framework
  | _ => none

/-! Concrete fixtures used to instantiate the theorems below. -/

/-- A sample recommendation, the top entry of an InferenceRecommendations
list. -/
def rec0 : Recommendation :=
  { EndpointConfiguration := { InstanceType := "ml.c5.xlarge", InitialInstanceCount := 2 } }

/-- A registered-model caller with no detected framework. -/
def baseCaller : Caller :=
  { isModelPackage := true
    role := "role-arn"
    model_package_arn := "arn:aws:sagemaker:model-package"
    detectedFramework := none
    frameworkVersion := none
    inference_recommender_job_results := none
    inference_recommendations := none }

/-- A session whose job returns one recommendation. -/
def baseSession : Session :=
  { createReturns := "job-1", waitReturns := { InferenceRecommendations := some [rec0] } }

/-- A sample load-test phase. -/
def phase0 : Phase := { duration_in_seconds := 120, initial_number_of_users := 1, spawn_rate := 1 }

/-! Theorems settling the claims. -/

/-- C3: the stopping-conditions translator returns null when both arguments
are absent and builds the MaxInvocations and ModelLatencyThresholds mapping
when both are supplied, but on the claimed input class with only
max_invocations supplied (max_invocations 100, thresholds None) it raises
TypeError by iterating None instead of returning the mapping. -/
theorem stopping_conditions_iterates_none :
    convertToStoppingConditionsJson none none = .ok none ∧
    convertToStoppingConditionsJson (some 100) (some [{ percentile := "P95", value_in_milliseconds := 200 }]) =
      .ok (some { MaxInvocations := some 100
                  ModelLatencyThresholds := [{ Percentile := "P95", ValueInMilliseconds := 200 }] }) ∧
    convertToStoppingConditionsJson (some 100) none =
      .error "TypeError: NoneType object is not iterable" :=
  ⟨rfl, rfl, rfl⟩

/-- C4: the framework table does map xgboost to XGBOOST and the spec-intended
derivation would submit XGBOOST, but right_size looks the uncalled bound
method `self._framework` up in the string-keyed table, the lookup misses, and
the submitted framework stays None. -/
theorem right_size_framework_not_mapped :
    List.lookup "xgboost" INFERENCE_RECOMMENDER_FRAMEWORK_MAPPING = some "XGBOOST" ∧
    rightSizeFrameworkSpec none (some "xgboost") = .str "XGBOOST" ∧
    submittedFramework
      (rightSize { baseCaller with detectedFramework := some "xgboost" } baseSession {}) =
      some PyVal.pyNone :=
  ⟨rfl, rfl, rfl⟩

/-- C8: right_size on a caller that is not a registered model package raises
the usage error with an empty session-call trace: no job is created and no
mutated caller is produced. -/
theorem right_size_requires_model_package (c : Caller) (s : Session) (a : RightSizeArgs)
    (h : c.isModelPackage = false) :
    rightSize c s a =
      ([], .error "right_size() is currently only supported with a registered model") := by
  simp [rightSize, h]

/-- Witness for C8 at a concrete non-registered caller. -/
theorem right_size_requires_model_package_witness :
    ({ baseCaller with isModelPackage := false } : Caller).isModelPackage = false ∧
    rightSize { baseCaller with isModelPackage := false } baseSession {} =
      ([], .error "right_size() is currently only supported with a registered model") :=
  ⟨rfl, right_size_requires_model_package { baseCaller with isModelPackage := false }
    baseSession {} rfl⟩

/-- C10: the resource-limit translator distinguishes present from absent by
truthiness: both arguments zero behaves exactly like both absent and returns
null, and whenever at least one argument is truthy (supplied and nonzero) the
mapping keeps both original values, a null member included. -/
theorem resource_limit_truthiness :
    convertToResourceLimitJson (some 0) (some 0) = none ∧
    convertToResourceLimitJson none none = none ∧
    (∀ a b : Option Int, (intTruthy a || intTruthy b) = true →
      convertToResourceLimitJson a b =
        some { MaxNumberOfTests := a, MaxParallelOfTests := b }) := by
  refine ⟨rfl, rfl, ?_⟩
  intro a b h
  rw [convertToResourceLimitJson, if_neg]
  rintro ⟨h1, h2⟩
  rcases Bool.or_eq_true_iff.mp h with h3 | h3
  · exact absurd h3 (by simp [h1])
  · exact absurd h3 (by simp [h2])

/-- Witness for C10 with max_tests 5 and max_parallel_tests absent. -/
theorem resource_limit_truthiness_witness :
    (intTruthy (some 5) || intTruthy none) = true ∧
    convertToResourceLimitJson (some 5) none =
      some { MaxNumberOfTests := some 5, MaxParallelOfTests := none } :=
  ⟨by decide, resource_limit_truthiness.2.2 (some 5) none (by decide)⟩

/-- C2 counterexample: accelerator_type is the non-null empty string (and so
are instance_type and initial_instance_count at their falsy values), yet the
guard neither raises nor returns the no-override None, it returns the top
recommendation pair, refuting the claimed non-null reading of rule 1. -/
theorem check_args_rule_order_cex :
    (some "" : Option String).isSome = true ∧
    checkInferenceRecommenderArgs (some "") (some 0) (some "") none none (some [rec0]) =
      .recommendation "ml.c5.xlarge" 2 :=
  ⟨rfl, rfl⟩

/-- C2 amended: the guard checks its rules in the stated order, but each
condition is Python truthiness, not non-nullness: a truthy (non-empty)
accelerator_type raises; otherwise a truthy instance_type or a truthy
(nonzero) initial_instance_count returns None; otherwise a non-null
async_inference_config returns None; otherwise a non-null
serverless_inference_config returns None; otherwise the guard returns the
pair from inference_recommendations[0]'s EndpointConfiguration. -/
theorem check_args_rule_order
    (instance_type : Option String) (initial_instance_count : Option Int)
    (accelerator_type : Option String)
    (serverless_inference_config async_inference_config : Option Unit)
    (recs : Option (List Recommendation)) :
    (strTruthy accelerator_type = true →
      checkInferenceRecommenderArgs instance_type initial_instance_count accelerator_type
        serverless_inference_config async_inference_config recs =
        .usageError "accelerator_type is not compatible with right_size().") ∧
    (strTruthy accelerator_type = false →
      (strTruthy instance_type || intTruthy initial_instance_count) = true →
      checkInferenceRecommenderArgs instance_type initial_instance_count accelerator_type
        serverless_inference_config async_inference_config recs = .noOverride) ∧
    (strTruthy accelerator_type = false →
      (strTruthy instance_type || intTruthy initial_instance_count) = false →
      async_inference_config.isSome = true →
      checkInferenceRecommenderArgs instance_type initial_instance_count accelerator_type
        serverless_inference_config async_inference_config recs = .noOverride) ∧
    (strTruthy accelerator_type = false →
      (strTruthy instance_type || intTruthy initial_instance_count) = false →
      async_inference_config = none →
      serverless_inference_config.isSome = true →
      checkInferenceRecommenderArgs instance_type initial_instance_count accelerator_type
        serverless_inference_config async_inference_config recs = .noOverride) ∧
    (strTruthy accelerator_type = false →
      (strTruthy instance_type || intTruthy initial_instance_count) = false →
      async_inference_config = none →
      serverless_inference_config = none →
      ∀ r rest, recs = some (r :: rest) →
      checkInferenceRecommenderArgs instance_type initial_instance_count accelerator_type
        serverless_inference_config async_inference_config recs =
        .recommendation r.EndpointConfiguration.InstanceType
          r.EndpointConfiguration.InitialInstanceCount) := by
  refine ⟨?_, ?_, ?_, ?_, ?_⟩
  · intro h1
    simp [checkInferenceRecommenderArgs, h1]
  · intro h1 h2
    simp [checkInferenceRecommenderArgs, h1, h2]
  · intro h1 h2 h3
    simp [checkInferenceRecommenderArgs, h1, h2, h3]
  · intro h1 h2 h3 h4
    simp [checkInferenceRecommenderArgs, h1, h2, h3, h4]
  · intro h1 h2 h3 h4 r rest h5
    simp [checkInferenceRecommenderArgs, h1, h2, h3, h4, h5]

/-- Witness for C2 applying the final rule at a concrete argument set with no
overrides and one recommendation. -/
theorem check_args_rule_order_witness :
    checkInferenceRecommenderArgs none none none none none (some [rec0]) =
      .recommendation "ml.c5.xlarge" 2 := by
  have h := (check_args_rule_order none none none none none (some [rec0])).2.2.2.2
    rfl rfl rfl rfl rec0 [] rfl
  simpa [rec0] using h

/-- C7 counterexample: with the supplied empty-string traffic type and one
phase, the translator emits the sentinel PHASES rather than the given traffic
type, refuting the claimed if-supplied reading. -/
theorem traffic_pattern_spec_cex :
    convertToTrafficPatternJson (some "") (some [phase0]) =
      some { Phases := [phase0.to_json], TrafficType := "PHASES" } ∧
    ("PHASES" : String) ≠ "" :=
  ⟨rfl, by decide⟩

/-- C7 amended: the traffic-pattern translator returns null when the phases
sequence is falsy (absent or empty), and otherwise returns the Phases wire
forms together with TrafficType equal to the given traffic type when that
type is truthy (non-empty) and the constant PHASES otherwise. -/
theorem traffic_pattern_spec (traffic_type : Option String) (phases : Option (List Phase)) :
    (listTruthy phases = false → convertToTrafficPatternJson traffic_type phases = none) ∧
    (∀ t p ps, traffic_type = some t → t ≠ "" → phases = some (p :: ps) →
      convertToTrafficPatternJson traffic_type phases =
        some { Phases := List.map Phase.to_json (p :: ps), TrafficType := t }) ∧
    (∀ p ps, (traffic_type = none ∨ traffic_type = some "") → phases = some (p :: ps) →
      convertToTrafficPatternJson traffic_type phases =
        some { Phases := List.map Phase.to_json (p :: ps), TrafficType := "PHASES" }) := by
  refine ⟨?_, ?_, ?_⟩
  · intro h
    simp [convertToTrafficPatternJson, h]
  · intro t p ps ht htne hp
    simp [convertToTrafficPatternJson, hp, ht, strTruthy, htne, List.isEmpty, listTruthy]
  · intro p ps ht hp
    rcases ht with ht | ht <;>
      simp [convertToTrafficPatternJson, hp, ht, strTruthy, List.isEmpty, listTruthy]

/-- Witness for C7 with an explicit traffic type and one phase. -/
theorem traffic_pattern_spec_witness :
    convertToTrafficPatternJson (some "STAIRS") (some [phase0]) =
      some { Phases := [phase0.to_json], TrafficType := "STAIRS" } :=
  (traffic_pattern_spec (some "STAIRS") (some [phase0])).2.1 "STAIRS" phase0 []
    rfl (by decide) rfl

/-- C9: with every deploy argument absent, the guard reaches the unguarded
inference_recommendations[0] access and fails when that field is None or the
empty list, while every truthy-override argument combination returns before
the access and can never produce the access failure. -/
theorem check_args_unguarded_access :
    (∀ recs : Option (List Recommendation), (recs = none ∨ recs = some []) →
      checkInferenceRecommenderArgs none none none none none recs = .accessFailure) ∧
    (∀ (instance_type : Option String) (initial_instance_count : Option Int)
        (accelerator_type : Option String)
        (serverless_inference_config async_inference_config : Option Unit)
        (recs : Option (List Recommendation)),
      strTruthy accelerator_type = false →
      (strTruthy instance_type || intTruthy initial_instance_count
        || async_inference_config.isSome || serverless_inference_config.isSome) = true →
      checkInferenceRecommenderArgs instance_type initial_instance_count accelerator_type
        serverless_inference_config async_inference_config recs ≠ .accessFailure) := by
  constructor
  · intro recs h
    rcases h with h | h <;> rw [h] <;> rfl
  · intro it cnt acc sv ac recs hacc hor
    simp only [Bool.or_eq_true] at hor
    rcases hor with ((h | h) | h) | h <;>
      simp [checkInferenceRecommenderArgs, hacc, h]

/-- Witness for C9 at the all-absent argument set with no recommendations and
at one truthy-override argument set. -/
theorem check_args_unguarded_access_witness :
    checkInferenceRecommenderArgs none none none none none none = .accessFailure ∧
    checkInferenceRecommenderArgs (some "ml.m5.large") none none none none none ≠
      .accessFailure :=
  ⟨check_args_unguarded_access.1 none (Or.inl rfl),
   check_args_unguarded_access.2 (some "ml.m5.large") none none none none none rfl (by decide)⟩

/-- Helper: the per-entry translator on an entry that binds instance_types
emits one configuration per candidate value, each carrying the descriptors of
the remaining keys. -/
theorem entryConfigs_of_get (e : Entry) (cp : CategoricalParameter)
    (h : e.get "instance_types" = some cp) :
    entryConfigs e = .ok (List.map
      (fun t => EndpointConfigJson.mk
        (EnvironmentParameterRangesJson.mk (rangeDescriptors (e.popKey "instance_types"))) t) cp.values) := by
  simp [entryConfigs, h]

/-- Helper: the entry loop on entries that all bind instance_types returns
the concatenation of the per-entry configuration lists. -/
theorem convertEntries_of_all (rs : List Entry)
    (hall : ∀ e ∈ rs, (e.get "instance_types").isSome = true) :
    convertEntries rs = .ok (List.flatten (List.map (fun e : Entry =>
      List.map (fun t => EndpointConfigJson.mk
        (EnvironmentParameterRangesJson.mk (rangeDescriptors (e.popKey "instance_types"))) t)
        (((e.get "instance_types").map CategoricalParameter.values).getD [])) rs)) := by
  induction rs with
  | nil => rfl
  | cons x xs ih =>
      have hx := hall x (List.mem_cons_self x xs)
      obtain ⟨cp, hcp⟩ := Option.isSome_iff_exists.mp hx
      have h1 := entryConfigs_of_get x cp hcp
      have h2 := ih (fun e he => hall e (List.mem_cons_of_mem x he))
      simp [convertEntries, h1, h2, hcp]

/-- Helper: the per-entry translator only ever raises the fixed ValueError
message. -/
theorem entryConfigs_error_msg (e : Entry) (msg : String)
    (h : entryConfigs e = .error msg) :
    msg = "instance_type must be defined as a hyperparameter_range" := by
  unfold entryConfigs at h
  cases hx : e.get "instance_types" with
  | none =>
      rw [hx] at h
      exact (Except.error.inj h).symm
  | some cp =>
      rw [hx] at h
      cases h

/-- Helper: the entry loop raises the fixed ValueError whenever some entry
lacks the instance_types binding. -/
theorem convertEntries_error (rs : List Entry) (e : Entry) (he : e ∈ rs)
    (h : e.get "instance_types" = none) :
    convertEntries rs = .error "instance_type must be defined as a hyperparameter_range" := by
  induction rs with
  | nil => cases he
  | cons x xs ih =>
      rcases List.mem_cons.mp he with rfl | hmem
      · simp [convertEntries, entryConfigs, h]
      · cases hx : entryConfigs x with
        | error msg =>
            have hm := entryConfigs_error_msg x msg hx
            simp [convertEntries, hx, hm]
        | ok c =>
            simp [convertEntries, hx, ih hmem]

/-- C6: whenever some hyperparameter-ranges entry lacks the instance_types
key, the endpoint-configuration translator raises the ValueError instead of
returning a fragment. -/
theorem endpoint_configurations_missing_instance_types (rs : List Entry) (e : Entry)
    (he : e ∈ rs) (h : e.get "instance_types" = none) :
    convertToEndpointConfigurationsJson (some rs) =
      .error "instance_type must be defined as a hyperparameter_range" := by
  cases rs with
  | nil => cases he
  | cons x xs =>
      have hce := convertEntries_error (x :: xs) e he h
      simp [convertToEndpointConfigurationsJson, listTruthy, hce]

/-- Witness for C6 at a one-entry input that only binds OMP_NUM_THREADS. -/
theorem endpoint_configurations_missing_instance_types_witness :
    ([("OMP_NUM_THREADS", { values := ["1"] })] : Entry) ∈
      ([[("OMP_NUM_THREADS", { values := ["1"] })]] : List Entry) ∧
    Entry.get [("OMP_NUM_THREADS", { values := ["1"] })] "instance_types" = none ∧
    convertToEndpointConfigurationsJson (some [[("OMP_NUM_THREADS", { values := ["1"] })]]) =
      .error "instance_type must be defined as a hyperparameter_range" :=
  ⟨List.mem_cons_self _ _, rfl,
   endpoint_configurations_missing_instance_types
     [[("OMP_NUM_THREADS", { values := ["1"] })]]
     [("OMP_NUM_THREADS", { values := ["1"] })] (List.mem_cons_self _ _) rfl⟩

/-- C5: for a non-empty hyperparameter-ranges input whose entries all bind
instance_types, the translator emits for each entry and each of its candidate
instance types exactly one configuration document, whose categorical range
list has exactly one Name/Value descriptor per remaining key of that entry,
and for absent or empty input it returns null. -/
theorem endpoint_configurations_shape (rs : List Entry) (hne : rs ≠ [])
    (hall : ∀ e ∈ rs, (e.get "instance_types").isSome = true) :
    convertToEndpointConfigurationsJson none = .ok none ∧
    convertToEndpointConfigurationsJson (some []) = .ok none ∧
    ∃ l, convertToEndpointConfigurationsJson (some rs) = .ok (some l) ∧
      l = List.flatten (List.map (fun e : Entry =>
            List.map (fun t => EndpointConfigJson.mk
              (EnvironmentParameterRangesJson.mk (rangeDescriptors (e.popKey "instance_types"))) t)
              (((e.get "instance_types").map CategoricalParameter.values).getD [])) rs) ∧
      l.length = (List.map (fun e : Entry =>
        (((e.get "instance_types").map CategoricalParameter.values).getD []).length) rs).sum ∧
      ∀ cfg ∈ l, ∃ e ∈ rs,
        cfg.InstanceType ∈ ((e.get "instance_types").map CategoricalParameter.values).getD [] ∧
        cfg.EnvironmentParameterRanges.CategoricalParameterRanges.length =
          (e.popKey "instance_types").length ∧
        List.map ParameterRangeJson.Name cfg.EnvironmentParameterRanges.CategoricalParameterRanges =
          List.map Prod.fst (e.popKey "instance_types") := by
  refine ⟨rfl, rfl, ?_⟩
  have hce := convertEntries_of_all rs hall
  refine ⟨_, ?_, rfl, ?_, ?_⟩
  · cases rs with
    | nil => exact absurd rfl hne
    | cons x xs => simp [convertToEndpointConfigurationsJson, listTruthy, hce]
  · rw [List.length_flatten, List.map_map]
    refine congrArg List.sum (List.map_congr_left ?_)
    intro e _
    simp [Function.comp]
  · intro cfg hcfg
    rw [List.mem_flatten] at hcfg
    obtain ⟨lst, hlst, hmem⟩ := hcfg
    rw [List.mem_map] at hlst
    obtain ⟨e, he, rfl⟩ := hlst
    rw [List.mem_map] at hmem
    obtain ⟨t, ht, rfl⟩ := hmem
    exact ⟨e, he, ht, by simp [rangeDescriptors], by simp [rangeDescriptors]⟩

/-- Witness for C5 at one entry with two instance types and one extra
hyperparameter. -/
theorem endpoint_configurations_shape_witness :
    ∃ l, convertToEndpointConfigurationsJson
        (some [[("instance_types", { values := ["ml.c5.xlarge", "ml.c5.2xlarge"] }),
                ("OMP_NUM_THREADS", { values := ["1", "2", "3", "4"] })]]) =
      .ok (some l) ∧ l.length = 2 := by
  obtain ⟨l, h1, h2, h3, h4⟩ :=
    (endpoint_configurations_shape
      [[("instance_types", { values := ["ml.c5.xlarge", "ml.c5.2xlarge"] }),
        ("OMP_NUM_THREADS", { values := ["1", "2", "3", "4"] })]]
      (by decide) (by decide)).2.2
  refine ⟨l, h1, ?_⟩
  rw [h3]
  decide

/-- C1 counterexample: with one hyperparameter-ranges entry whose
instance_types parameter has no candidate values, the endpoint-configurations
translator returns the non-null empty fragment, yet right_size submits job
type Default, refuting the claimed non-null reading. -/
theorem right_size_job_type_cex :
    convertToEndpointConfigurationsJson (some [[("instance_types", { values := [] })]]) =
      .ok (some []) ∧
    submittedJobType (rightSize baseCaller baseSession
      { hyperparameter_ranges := some [[("instance_types", { values := [] })]] }) =
      some "Default" :=
  ⟨rfl, rfl⟩

/-- C1 amended: on a registered-model caller whose translators raise no
exception, the submitted job type is Advanced iff at least one of the four
fragments is truthy (non-null, and non-empty in the list-shaped
endpoint-configurations case), and Default otherwise. -/
theorem right_size_job_type (c : Caller) (s : Session) (a : RightSizeArgs)
    (h : c.isModelPackage = true)
    (ec : Option (List EndpointConfigJson)) (sc : Option StoppingConditionsJson)
    (hec : convertToEndpointConfigurationsJson a.hyperparameter_ranges = .ok ec)
    (hsc : convertToStoppingConditionsJson a.max_invocations a.model_latency_thresholds = .ok sc) :
    (submittedJobType (rightSize c s a) = some "Advanced" ↔
      (configsTruthy ec
        || (convertToTrafficPatternJson a.traffic_type a.phases).isSome
        || sc.isSome
        || (convertToResourceLimitJson a.max_tests a.max_parallel_tests).isSome) = true) ∧
    (submittedJobType (rightSize c s a) = some "Default" ↔
      (configsTruthy ec
        || (convertToTrafficPatternJson a.traffic_type a.phases).isSome
        || sc.isSome
        || (convertToResourceLimitJson a.max_tests a.max_parallel_tests).isSome) = false) := by
  by_cases hcond : (configsTruthy ec
      || (convertToTrafficPatternJson a.traffic_type a.phases).isSome
      || sc.isSome
      || (convertToResourceLimitJson a.max_tests a.max_parallel_tests).isSome) = true
  · have hj : submittedJobType (rightSize c s a) = some "Advanced" := by
      simp [rightSize, h, hec, hsc, submittedJobType, hcond]
    rw [hj]
    simp [hcond]
  · have hcond2 : (configsTruthy ec
        || (convertToTrafficPatternJson a.traffic_type a.phases).isSome
        || sc.isSome
        || (convertToResourceLimitJson a.max_tests a.max_parallel_tests).isSome) = false :=
      Bool.eq_false_iff.mpr hcond
    have hj : submittedJobType (rightSize c s a) = some "Default" := by
      simp [rightSize, h, hec, hsc, submittedJobType, hcond2]
    rw [hj]
    simp [hcond2]

/-- Witness for C1 at a registered caller with two phases and no other
advanced parameter, which submits an Advanced job. -/
theorem right_size_job_type_witness :
    submittedJobType (rightSize baseCaller baseSession { phases := some [phase0, phase0] }) =
      some "Advanced" :=
  ((right_size_job_type baseCaller baseSession { phases := some [phase0, phase0] } rfl
    none none rfl rfl).1).mpr (by decide)

end InferenceRecommender
